import Mathlib

/-!
Verification development for the chantier-api repository.

Shallow embedding of the Django application (models.py, serializers.py,
views.py, permissions_filters.py) into Lean 4.

Monetary amounts and hour counts are Python `Decimal` values; they are
embedded as exact rationals (ℚ).  Dates are embedded as integers (ordinal
day numbers); `timezone.now().date()` becomes an explicit `today : Int`
parameter.  Database rows become lists of structures, foreign keys become
numeric ids, and the ORM write paths (`save`, `delete`, signals) become
explicit state-passing functions on a `DB` record.
-/

namespace Chantiers

/-- Embedding of `StatusChantier` (models.py): states of a chantier/project. -/
inductive StatusChantier where
  | EN_ATTENTE | EN_COURS | EN_PAUSE | TERMINE | FACTURE | ANNULE
deriving DecidableEq, Repr

/-- Embedding of `StatusTache` (models.py): states of a task
(`A_FAIRE` todo, `EN_COURS` in progress, `EN_ATTENTE` blocked,
`TERMINEE` done, `REVISEE` revised). -/
inductive StatusTache where
  | A_FAIRE | EN_COURS | EN_ATTENTE | TERMINEE | REVISEE
deriving DecidableEq, Repr

/-- Embedding of `Anomalie.statut` choices (models.py). -/
inductive StatutAnomalie where
  | OUVERTE | EN_COURS | FERMEE | REPORTEE
deriving DecidableEq, Repr

/-- Row of the `Chantier` model (models.py): the fields the claims need.
`chef` is a nullable FK to a user id, `cout_reel` is the stored computed
real cost, `date_fin_prevue` the planned end date. -/
structure Chantier where
  id : Nat
  chef : Option Nat
  status : StatusChantier
  date_fin_prevue : Int
  cout_reel : ℚ
deriving DecidableEq, Repr

/-- Row of the `Lot` model (models.py): phase of a chantier;
`chantierId` is the FK `chantier`. -/
structure Lot where
  id : Nat
  chantierId : Nat
deriving DecidableEq, Repr

/-- Row of the `Tache` model (models.py): `lotId` is the FK `lot`,
`heures_reelles` the stored computed hour total, `taux_horaire` the
hourly rate, `date_fin_reelle` the nullable actual end date. -/
structure Tache where
  id : Nat
  lotId : Nat
  status : StatusTache
  date_fin_prevue : Int
  date_fin_reelle : Option Int
  heures_reelles : ℚ
  taux_horaire : ℚ
deriving DecidableEq, Repr

/-- Row of the `HeureTravail` model (models.py): a logged block of hours;
`tacheId` is the FK `tache`. -/
structure HeureTravail where
  id : Nat
  tacheId : Nat
  heures : ℚ
deriving DecidableEq, Repr

/-- Row of the `Anomalie` model (models.py): the fields the anomaly
lifecycle endpoints touch. -/
structure Anomalie where
  id : Nat
  tacheId : Nat
  statut : StatutAnomalie
  date_resolution_reelle : Option Int
deriving DecidableEq, Repr

/-- The database state: one list of rows per model. -/
structure DB where
  chantiers : List Chantier
  lots : List Lot
  taches : List Tache
  heures : List HeureTravail
deriving DecidableEq, Repr

/-- Embedding of `tache.heures_travail.all()`: the entries of task `tid`. -/
def entriesOf (db : DB) (tid : Nat) : List HeureTravail :=
  db.heures.filter (fun e => e.tacheId == tid)

/-- Embedding of `self.heures_travail.aggregate(Sum('heures'))['heures__sum'] or 0`
(models.py, Tache.calculer_heures_reelles): total hours of task `tid`,
`0` for the empty set. -/
def sumHeures (db : DB) (tid : Nat) : ℚ :=
  ((entriesOf db tid).map (fun e => e.heures)).sum

/-- Look up the task row with id `tid`. -/
def getTache (db : DB) (tid : Nat) : Option Tache :=
  db.taches.find? (fun t => t.id == tid)

/-- Embedding of `lot.chantier`: the chantier id of lot `lid` (via the FK). -/
def lotChantier (db : DB) (lid : Nat) : Option Nat :=
  (db.lots.find? (fun l => l.id == lid)).map (fun l => l.chantierId)

/-- Embedding of `self.lot.chantier` for task `tid`: walk Tache → Lot → Chantier. -/
def chantierIdOfTache (db : DB) (tid : Nat) : Option Nat :=
  match getTache db tid with
  | some t => lotChantier db t.lotId
  | none => none

/-- Embedding of `Tache.calculer_cout_heures` (models.py):
`self.heures_reelles * self.taux_horaire`, pure, recomputed on read. -/
def Tache_calculer_cout_heures (t : Tache) : ℚ :=
  t.heures_reelles * t.taux_horaire

/-- The total computed by `Chantier.calculer_cout_reel` (models.py):
`for lot in self.lots.all(): for tache in lot.taches.all():
total += tache.calculer_cout_heures()`. -/
def coutTotal (db : DB) (cid : Nat) : ℚ :=
  ((db.lots.filter (fun l => l.chantierId == cid)).map
    (fun l => ((db.taches.filter (fun t => t.lotId == l.id)).map
      Tache_calculer_cout_heures).sum)).sum

/-- Row-level write of `Chantier.save(update_fields=['cout_reel'])`:
store `v` in the chantier row with id `cid`. -/
def setCoutReel (cid : Nat) (v : ℚ) (c : Chantier) : Chantier :=
  if c.id = cid then { c with cout_reel := v } else c

/-- Row-level write of `Tache.save(update_fields=['heures_reelles'])`:
store `v` in the task row with id `tid`. -/
def setHeuresReelles (tid : Nat) (v : ℚ) (t : Tache) : Tache :=
  if t.id = tid then { t with heures_reelles := v } else t

/-- Embedding of `Chantier.calculer_cout_reel` (models.py): recompute the total and
`self.save(update_fields=['cout_reel'])` it into the chantier row.
(The `post_save` receiver for Chantier only logs.) -/
def Chantier_calculer_cout_reel (db : DB) (cid : Nat) : DB :=
  let total := coutTotal db cid
  { db with chantiers := db.chantiers.map (setCoutReel cid total) }

/-- The state right after `self.save(update_fields=['heures_reelles'])`
inside `Tache.calculer_heures_reelles`: the recomputed total stored into
the task row. -/
def storeHeuresReelles (db : DB) (tid : Nat) : DB :=
  { db with taches := db.taches.map (setHeuresReelles tid (sumHeures db tid)) }

/-- Embedding of `Tache.calculer_heures_reelles` (models.py): sum the task's
`HeureTravail.heures`, store it in `heures_reelles`
(`self.save(update_fields=['heures_reelles'])`), then chain into
`self.lot.chantier.calculer_cout_reel()`. -/
def Tache_calculer_heures_reelles (db : DB) (tid : Nat) : DB :=
  match chantierIdOfTache (storeHeuresReelles db tid) tid with
  | some cid => Chantier_calculer_cout_reel (storeHeuresReelles db tid) cid
  | none => storeHeuresReelles db tid

/-- Embedding of `super().save()` at the row level: update the row with the same pk,
or insert the new row. -/
def upsertHeure (l : List HeureTravail) (h : HeureTravail) : List HeureTravail :=
  if l.any (fun e => e.id == h.id) then
    l.map (fun e => if e.id = h.id then h else e)
  else
    l ++ [h]

/-- Embedding of `HeureTravail.save` (models.py): `super().save(...)` (which fires the
`post_save` signal `maj_heures_tache`, i.e. one call of
`instance.tache.calculer_heures_reelles()`), followed by the override's
own `self.tache.calculer_heures_reelles()` — two invocations in total. -/
def HeureTravail_save (db : DB) (h : HeureTravail) : DB :=
  let db1 : DB := { db with heures := upsertHeure db.heures h }
  Tache_calculer_heures_reelles (Tache_calculer_heures_reelles db1 h.tacheId) h.tacheId

/-- Embedding of `HeureTravail.delete` (models.py): remember `tache = self.tache`,
`super().delete()`, then `tache.calculer_heures_reelles()`.
The deleted row is the one the ORM fetched for pk `hid`. -/
def HeureTravail_delete (db : DB) (hid : Nat) : DB :=
  match db.heures.find? (fun e => e.id == hid) with
  | none => db
  | some e =>
      let db1 : DB := { db with heures := db.heures.filter (fun x => x.id != hid) }
      Tache_calculer_heures_reelles db1 e.tacheId

/-- A mutation of the work-hour table through the model write paths. -/
inductive Op where
  | save : HeureTravail → Op
  | del : Nat → Op
deriving DecidableEq, Repr

/-- Apply one mutation. -/
def applyOp (db : DB) : Op → DB
  | .save h => HeureTravail_save db h
  | .del i => HeureTravail_delete db i

/-- The mutation is a create/update/delete under task `T` (for a delete:
the row the ORM resolves for that pk belongs to `T`). -/
def opUnderTache (T : Nat) (db : DB) : Op → Prop
  | .save h => h.tacheId = T
  | .del i => ∃ e, db.heures.find? (fun x => x.id == i) = some e ∧ e.tacheId = T

/-- The mutation touches an entry whose task lives under chantier `P`. -/
def opUnderChantier (P : Nat) (db : DB) : Op → Prop
  | .save h => chantierIdOfTache db h.tacheId = some P
  | .del i => ∃ e, db.heures.find? (fun x => x.id == i) = some e ∧
      chantierIdOfTache db e.tacheId = some P

/-- A sequence of mutations, all under task `T`, run from `db` to `db2`. -/
inductive SeqUnderTache (T : Nat) : DB → List Op → DB → Prop where
  | nil : ∀ db, SeqUnderTache T db [] db
  | cons : ∀ db op ops db2, opUnderTache T db op →
      SeqUnderTache T (applyOp db op) ops db2 →
      SeqUnderTache T db (op :: ops) db2

/-- A sequence of mutations, all under chantier `P`, run from `db` to `db2`. -/
inductive SeqUnderChantier (P : Nat) : DB → List Op → DB → Prop where
  | nil : ∀ db, SeqUnderChantier P db [] db
  | cons : ∀ db op ops db2, opUnderChantier P db op →
      SeqUnderChantier P (applyOp db op) ops db2 →
      SeqUnderChantier P db (op :: ops) db2

/-- The C1 invariant for task `T`: every task row with id `T` stores
exactly the sum of its remaining entries. -/
def tacheInvariant (db : DB) (T : Nat) : Prop :=
  ∀ t ∈ db.taches, t.id = T → t.heures_reelles = sumHeures db T

/-- The claimed project-level sum: over all tasks under `P` (tasks whose
lot resolves to `P`), `heures_reelles × taux_horaire`. -/
def coutFlat (db : DB) (P : Nat) : ℚ :=
  ((db.taches.filter (fun t => lotChantier db t.lotId == some P)).map
    Tache_calculer_cout_heures).sum

/-- The C2 invariant for chantier `P`: every chantier row with id `P`
stores exactly the code's recomputed total. -/
def chantierInvariant (db : DB) (P : Nat) : Prop :=
  ∀ c ∈ db.chantiers, c.id = P → c.cout_reel = coutTotal db P

/-- Embedding of `Tache.est_en_retard` (models.py): for a `TERMINEE` task, late iff an
actual end date exists and is after the planned one; otherwise late iff
today is after the planned end date. -/
def Tache_est_en_retard (t : Tache) (today : Int) : Bool :=
  if t.status = StatusTache.TERMINEE then
    match t.date_fin_reelle with
    | some d => d > t.date_fin_prevue
    | none => false
  else
    today > t.date_fin_prevue

/-- Number of tasks of lot `lid` (`self.taches.count()`). -/
def lotTacheCount (db : DB) (lid : Nat) : Nat :=
  (db.taches.filter (fun t => t.lotId == lid)).length

/-- Number of `TERMINEE` tasks of lot `lid`
(`taches.filter(status=StatusTache.TERMINEE).count()`). -/
def lotTacheTermineesCount (db : DB) (lid : Nat) : Nat :=
  (db.taches.filter (fun t => t.lotId == lid && t.status == StatusTache.TERMINEE)).length

/-- Embedding of `Lot.get_progression_percentage` (models.py): 0 if the lot has no
tasks, else `terminees / count * 100` (real division, embedded in ℚ). -/
def Lot_get_progression_percentage (db : DB) (lid : Nat) : ℚ :=
  let taches := db.taches.filter (fun t => t.lotId == lid)
  if taches.isEmpty then 0
  else
    let terminees := lotTacheTermineesCount db lid
    ((terminees : ℚ) / (taches.length : ℚ)) * 100

/-- Embedding of `Chantier.get_progression_percentage` (models.py): 0 if the chantier
has no lots, 0 if the lots have no tasks in total, else
`taches_terminees / total_taches * 100` summed lot by lot. -/
def Chantier_get_progression_percentage (db : DB) (cid : Nat) : ℚ :=
  let lots := db.lots.filter (fun l => l.chantierId == cid)
  if lots.isEmpty then 0
  else
    let total_taches := (lots.map (fun l => lotTacheCount db l.id)).sum
    if total_taches = 0 then 0
    else
      let taches_terminees := (lots.map (fun l => lotTacheTermineesCount db l.id)).sum
      ((taches_terminees : ℚ) / (total_taches : ℚ)) * 100

/-- Embedding of `ChantiersFilter.filter_en_retard` (permissions_filters.py): when the
boolean filter value is truthy, keep chantiers with
`date_fin_prevue < today` and `status in ['EN_COURS', 'EN_ATTENTE']`;
otherwise return the queryset unchanged. -/
def ChantiersFilter_filter_en_retard (today : Int) (qs : List Chantier)
    (value : Bool) : List Chantier :=
  if value then
    qs.filter (fun c => decide (c.date_fin_prevue < today) &&
      (c.status == StatusChantier.EN_COURS || c.status == StatusChantier.EN_ATTENTE))
  else qs

/-- Embedding of `TacheFilter.filter_en_retard` (permissions_filters.py): when the
boolean filter value is truthy, keep tasks with
`date_fin_prevue < today` and `status in ['A_FAIRE', 'EN_COURS', 'EN_ATTENTE']`;
otherwise return the queryset unchanged. -/
def TacheFilter_filter_en_retard (today : Int) (qs : List Tache)
    (value : Bool) : List Tache :=
  if value then
    qs.filter (fun t => decide (t.date_fin_prevue < today) &&
      (t.status == StatusTache.A_FAIRE || t.status == StatusTache.EN_COURS ||
        t.status == StatusTache.EN_ATTENTE))
  else qs

/-- An authenticated-or-not request principal (`request.user`):
`is_staff` is the administrator flag. -/
structure Principal where
  id : Nat
  is_staff : Bool
  is_authenticated : Bool
deriving DecidableEq, Repr

/-- HTTP methods; `SAFE_METHODS` is `('GET', 'HEAD', 'OPTIONS')`. -/
inductive Method where
  | GET | HEAD | OPTIONS | POST | PUT | PATCH | DELETE
deriving DecidableEq, Repr

/-- Embedding of `rest_framework.permissions.SAFE_METHODS`. -/
def SAFE_METHODS : List Method := [Method.GET, Method.HEAD, Method.OPTIONS]

/-- Embedding of `IsChefOrReadOnly.has_object_permission` (permissions_filters.py):
safe methods always allowed; otherwise `request.user == obj.chef or
request.user.is_staff` (a null chef never equals a user). -/
def IsChefOrReadOnly_has_object_permission (m : Method) (u : Principal)
    (chef : Option Nat) : Bool :=
  if m ∈ SAFE_METHODS then true
  else chef == some u.id || u.is_staff

/-- Outcome of an object-level request on `ChantiersViewSet`
(views.py: `permission_classes = [IsAuthenticated, IsChefOrReadOnly]`):
401 unauthenticated, 403 when `IsChefOrReadOnly` denies, else the
handler runs (2xx, summarised as 200). -/
def chantier_object_request_status (m : Method) (u : Principal)
    (chef : Option Nat) : Nat :=
  if !u.is_authenticated then 401
  else if IsChefOrReadOnly_has_object_permission m u chef then 200
  else 403

/-- Outcome of an object-level request on `TachesViewSet`
(views.py lines 201-202: `permission_classes = [IsAuthenticated]`, no
object-level permission): 401 unauthenticated, else the handler runs. -/
def tache_object_request_status (_m : Method) (u : Principal) : Nat :=
  if !u.is_authenticated then 401 else 200

/-- Validation errors raised by `HeuresTravailSerializer.validate_heures`. -/
inductive HeuresErr where
  | nonPositive   -- "Les heures doivent etre positives."
  | plusDe24h     -- "Impossible de travailler plus de 24h par jour."
deriving DecidableEq, Repr

/-- Embedding of `HeuresTravailSerializer.validate_heures` (serializers.py).  Hour
values are `Decimal` with 2 decimal places (`max_digits=5,
decimal_places=2` on the model field); the input is embedded as an
integer count `n` of hundredths of an hour, i.e. the value `n / 100`.
Rejects `value <= 0` and `value > 24`. -/
def HeuresTravailSerializer_validate_heures (n : Int) : Except HeuresErr Int :=
  if n ≤ 0 then Except.error HeuresErr.nonPositive
  else if n > 2400 then Except.error HeuresErr.plusDe24h
  else Except.ok n

/-- Embedding of `TachesViewSet.heures`, POST branch (views.py): validate through
`HeuresTravailSerializer`; on success `serializer.save(tache=tache)`
creates the entry (triggering the cascade) and answers 201; on failure
answer 400 with the errors and leave the state unchanged.  `eid` is the
pk the insert assigns; `n` is the submitted hours value in hundredths. -/
def TachesViewSet_heures_post (db : DB) (tid : Nat) (eid : Nat) (n : Int) :
    Nat × DB :=
  match HeuresTravailSerializer_validate_heures n with
  | Except.error _ => (400, db)
  | Except.ok v => (201, HeureTravail_save db { id := eid, tacheId := tid, heures := (v : ℚ) / 100 })

/-- An uploaded image file: byte size and (lower-cased) extension. -/
structure UploadedImage where
  size : Nat
  ext : String
deriving DecidableEq, Repr

/-- Validation errors for the photo upload. -/
inductive PhotoErr where
  | imageTooLarge      -- "L image depasse 5 MB." (serializer size check)
  | formatNotAllowed   -- FileExtensionValidator failure
deriving DecidableEq, Repr

/-- Embedding of `FileExtensionValidator(allowed_extensions=['jpg','jpeg','png','webp'])`
on `PhotoRapport.image` (models.py); DRF maps model-field validators
into the serializer field, so it runs before `validate_image`. -/
def allowedPhotoExtensions : List String := ["jpg", "jpeg", "png", "webp"]

/-- Embedding of `PhotoRapportSerializer.validate_image` (serializers.py):
reject images with `value.size > 5 * 1024 * 1024`. -/
def PhotoRapportSerializer_validate_image (img : UploadedImage) :
    Except PhotoErr UploadedImage :=
  if img.size > 5 * 1024 * 1024 then Except.error PhotoErr.imageTooLarge
  else Except.ok img

/-- Embedding of `TachesViewSet.photo` (views.py): run serializer validation (field
validators first, then `validate_image`); 201 on success, 400 with the
error otherwise. -/
def TachesViewSet_photo_post (img : UploadedImage) : Nat × Option PhotoErr :=
  if !(allowedPhotoExtensions.contains img.ext) then (400, some PhotoErr.formatNotAllowed)
  else
    match PhotoRapportSerializer_validate_image img with
    | Except.error e => (400, some e)
    | Except.ok _ => (201, none)

/-- Embedding of `AnomaliesViewSet.fermer` (views.py): `permission_classes =
[IsAuthenticated]` only; the action unconditionally sets
`statut = 'FERMEE'` and `date_resolution_reelle = timezone.now().date()`,
saves, and answers 200. -/
def AnomaliesViewSet_fermer (u : Principal) (a : Anomalie) (today : Int) :
    Nat × Anomalie :=
  if !u.is_authenticated then (401, a)
  else
    let a1 : Anomalie :=
      { a with statut := StatutAnomalie.FERMEE, date_resolution_reelle := some today }
    (200, a1)

/-! Helper notions used to state and prove the claims. -/

/-- Guarded sum: sum of `f` over the elements of `l` satisfying `p`. -/
def qsum (l : List α) (p : α → Bool) (f : α → ℚ) : ℚ :=
  (l.map (fun a => if p a then f a else 0)).sum

/-- The sum of `f` over the tasks under chantier `cid`, iterated the way
`Chantier.calculer_cout_reel` iterates: lot by lot. -/
def nestedSumQ (lots : List Lot) (taches : List Tache) (cid : Nat) (f : Tache → ℚ) : ℚ :=
  ((lots.filter (fun l => l.chantierId == cid)).map
    (fun l => ((taches.filter (fun t => t.lotId == l.id)).map f).sum)).sum

/-- The sum of `f` over the tasks whose lot resolves to chantier `cid`,
as one flat iteration over the task table. -/
def flatSumQ (lots : List Lot) (taches : List Tache) (cid : Nat) (f : Tache → ℚ) : ℚ :=
  ((taches.filter (fun t =>
    ((lots.find? (fun l => l.id == t.lotId)).map (fun l => l.chantierId)) == some cid)).map f).sum

/-- Number of tasks under chantier `cid` (tasks whose lot resolves to `cid`). -/
def tachesUnderCount (db : DB) (cid : Nat) : Nat :=
  (db.taches.filter (fun t => lotChantier db t.lotId == some cid)).length

/-- Number of `TERMINEE` tasks under chantier `cid`. -/
def tachesTermineesUnderCount (db : DB) (cid : Nat) : Nat :=
  (db.taches.filter (fun t =>
    lotChantier db t.lotId == some cid && t.status == StatusTache.TERMINEE)).length

/-- A small concrete database used to instantiate the proved theorems:
one chantier (id 1, chef user 9), one lot, one task at 50 €/h, no hours. -/
def exampleDB : DB :=
  { chantiers := [{ id := 1, chef := some 9, status := StatusChantier.EN_COURS,
                    date_fin_prevue := 100, cout_reel := 0 }],
    lots := [{ id := 1, chantierId := 1 }],
    taches := [{ id := 1, lotId := 1, status := StatusTache.A_FAIRE,
                 date_fin_prevue := 50, date_fin_reelle := none,
                 heures_reelles := 0, taux_horaire := 50 }],
    heures := [] }

/-- An 8-hour work entry on task 1 of `exampleDB`. -/
def exampleEntry : HeureTravail := { id := 1, tacheId := 1, heures := 8 }

/-- An authenticated, non-staff principal (user 2) who is not the chef
(user 9) of `exampleDB`'s chantier. -/
def examplePrincipal : Principal := { id := 2, is_staff := false, is_authenticated := true }

/-- An open anomaly on task 1. -/
def exampleAnomalie : Anomalie :=
  { id := 1, tacheId := 1, statut := StatutAnomalie.OUVERTE, date_resolution_reelle := none }

/-! ## Basic preservation lemmas about the recomputation cascade -/

theorem ccr_taches (db : DB) (cid : Nat) :
    (Chantier_calculer_cout_reel db cid).taches = db.taches := rfl

theorem ccr_lots (db : DB) (cid : Nat) :
    (Chantier_calculer_cout_reel db cid).lots = db.lots := rfl

theorem ccr_heures (db : DB) (cid : Nat) :
    (Chantier_calculer_cout_reel db cid).heures = db.heures := rfl

theorem chr_heures (db : DB) (tid : Nat) :
    (Tache_calculer_heures_reelles db tid).heures = db.heures := by
  unfold Tache_calculer_heures_reelles
  split <;> rfl

theorem chr_lots (db : DB) (tid : Nat) :
    (Tache_calculer_heures_reelles db tid).lots = db.lots := by
  unfold Tache_calculer_heures_reelles
  split <;> rfl

theorem chr_taches (db : DB) (tid : Nat) :
    (Tache_calculer_heures_reelles db tid).taches =
      db.taches.map (setHeuresReelles tid (sumHeures db tid)) := by
  unfold Tache_calculer_heures_reelles
  split <;> rfl

theorem chr_chantiers_of_none (db : DB) (tid : Nat)
    (h : chantierIdOfTache (storeHeuresReelles db tid) tid = none) :
    Tache_calculer_heures_reelles db tid = storeHeuresReelles db tid := by
  unfold Tache_calculer_heures_reelles
  rw [h]

theorem chr_eq_ccr_of_some (db : DB) (tid cid : Nat)
    (h : chantierIdOfTache (storeHeuresReelles db tid) tid = some cid) :
    Tache_calculer_heures_reelles db tid =
      Chantier_calculer_cout_reel (storeHeuresReelles db tid) cid := by
  unfold Tache_calculer_heures_reelles
  rw [h]

theorem mem_upsertHeure (l : List HeureTravail) (h : HeureTravail) :
    h ∈ upsertHeure l h := by
  unfold upsertHeure
  by_cases ha : l.any (fun e => e.id == h.id)
  · simp only [ha, if_true]
    rcases List.any_eq_true.mp ha with ⟨e, he, hid⟩
    refine List.mem_map.mpr ⟨e, he, ?_⟩
    simp only [beq_iff_eq] at hid
    simp [hid]
  · simp [ha]

theorem save_heures (db : DB) (h : HeureTravail) :
    (HeureTravail_save db h).heures = upsertHeure db.heures h := by
  unfold HeureTravail_save
  rw [chr_heures, chr_heures]

/-! ## Congruence and idempotence lemmas for the cascade -/

theorem DB_ext (a b : DB) (h1 : a.chantiers = b.chantiers) (h2 : a.lots = b.lots)
    (h3 : a.taches = b.taches) (h4 : a.heures = b.heures) : a = b := by
  cases a
  cases b
  cases h1
  cases h2
  cases h3
  cases h4
  rfl

theorem setHeuresReelles_id (tid : Nat) (v : ℚ) (t : Tache) :
    (setHeuresReelles tid v t).id = t.id := by
  unfold setHeuresReelles
  split <;> rfl

theorem setHeuresReelles_lotId (tid : Nat) (v : ℚ) (t : Tache) :
    (setHeuresReelles tid v t).lotId = t.lotId := by
  unfold setHeuresReelles
  split <;> rfl

theorem setHeuresReelles_idem (tid : Nat) (v : ℚ) (t : Tache) :
    setHeuresReelles tid v (setHeuresReelles tid v t) = setHeuresReelles tid v t := by
  unfold setHeuresReelles
  by_cases h : t.id = tid
  · simp [h]
  · simp [h]

theorem setCoutReel_idem (cid : Nat) (v : ℚ) (c : Chantier) :
    setCoutReel cid v (setCoutReel cid v c) = setCoutReel cid v c := by
  unfold setCoutReel
  by_cases h : c.id = cid
  · simp [h]
  · simp [h]

theorem map_setHeuresReelles_idem (l : List Tache) (tid : Nat) (v : ℚ) :
    (l.map (setHeuresReelles tid v)).map (setHeuresReelles tid v) =
      l.map (setHeuresReelles tid v) := by
  rw [List.map_map]
  apply List.map_congr_left
  intro t _
  exact setHeuresReelles_idem tid v t

theorem map_setCoutReel_idem (l : List Chantier) (cid : Nat) (v : ℚ) :
    (l.map (setCoutReel cid v)).map (setCoutReel cid v) = l.map (setCoutReel cid v) := by
  rw [List.map_map]
  apply List.map_congr_left
  intro c _
  exact setCoutReel_idem cid v c

theorem ccr_chantiers (db : DB) (cid : Nat) :
    (Chantier_calculer_cout_reel db cid).chantiers =
      db.chantiers.map (setCoutReel cid (coutTotal db cid)) := rfl

theorem coutTotal_ccr (db : DB) (cid cid' : Nat) :
    coutTotal (Chantier_calculer_cout_reel db cid) cid' = coutTotal db cid' := rfl

theorem store_chantiers (db : DB) (tid : Nat) :
    (storeHeuresReelles db tid).chantiers = db.chantiers := rfl

theorem store_taches (db : DB) (tid : Nat) :
    (storeHeuresReelles db tid).taches =
      db.taches.map (setHeuresReelles tid (sumHeures db tid)) := rfl

theorem sumHeures_store (db : DB) (tid tid' : Nat) :
    sumHeures (storeHeuresReelles db tid) tid' = sumHeures db tid' := rfl

theorem sumHeures_ccr (db : DB) (cid : Nat) (tid' : Nat) :
    sumHeures (Chantier_calculer_cout_reel db cid) tid' = sumHeures db tid' := rfl

theorem sumHeures_chr (db : DB) (tid tid' : Nat) :
    sumHeures (Tache_calculer_heures_reelles db tid) tid' = sumHeures db tid' := by
  unfold Tache_calculer_heures_reelles
  split <;> rfl

theorem getTache_store (db : DB) (tid tid' : Nat) :
    getTache (storeHeuresReelles db tid) tid' =
      (getTache db tid').map (setHeuresReelles tid (sumHeures db tid)) := by
  show (db.taches.map (setHeuresReelles tid (sumHeures db tid))).find?
      (fun t => t.id == tid') = _
  rw [List.find?_map]
  have hp : ((fun t : Tache => t.id == tid') ∘ setHeuresReelles tid (sumHeures db tid)) =
      (fun t : Tache => t.id == tid') := by
    funext t
    show ((setHeuresReelles tid (sumHeures db tid) t).id == tid') = (t.id == tid')
    rw [setHeuresReelles_id]
  rw [hp]
  rfl

theorem chantierIdOfTache_store (db : DB) (tid tid' : Nat) :
    chantierIdOfTache (storeHeuresReelles db tid) tid' = chantierIdOfTache db tid' := by
  unfold chantierIdOfTache
  rw [getTache_store]
  cases h : getTache db tid' with
  | none => rfl
  | some t =>
    simp only [Option.map_some]
    show lotChantier (storeHeuresReelles db tid)
        (setHeuresReelles tid (sumHeures db tid) t).lotId = lotChantier db t.lotId
    rw [setHeuresReelles_lotId]
    rfl

theorem chantierIdOfTache_ccr (db : DB) (cid : Nat) (tid' : Nat) :
    chantierIdOfTache (Chantier_calculer_cout_reel db cid) tid' =
      chantierIdOfTache db tid' := rfl

theorem chantierIdOfTache_chr (db : DB) (tid tid' : Nat) :
    chantierIdOfTache (Tache_calculer_heures_reelles db tid) tid' =
      chantierIdOfTache db tid' := by
  unfold Tache_calculer_heures_reelles
  split
  · rw [chantierIdOfTache_ccr, chantierIdOfTache_store]
  · rw [chantierIdOfTache_store]

theorem store_store (db : DB) (tid : Nat) :
    storeHeuresReelles (storeHeuresReelles db tid) tid = storeHeuresReelles db tid := by
  apply DB_ext
  · rfl
  · rfl
  · rw [store_taches, store_taches, sumHeures_store]
    exact map_setHeuresReelles_idem db.taches tid (sumHeures db tid)
  · rfl

theorem ccr_idem (db : DB) (cid : Nat) :
    Chantier_calculer_cout_reel (Chantier_calculer_cout_reel db cid) cid =
      Chantier_calculer_cout_reel db cid := by
  apply DB_ext
  · rw [ccr_chantiers, ccr_chantiers, coutTotal_ccr]
    exact map_setCoutReel_idem db.chantiers cid (coutTotal db cid)
  · rfl
  · rfl
  · rfl

theorem chr_idem (db : DB) (tid : Nat) :
    Tache_calculer_heures_reelles (Tache_calculer_heures_reelles db tid) tid =
      Tache_calculer_heures_reelles db tid := by
  cases hcid : chantierIdOfTache (storeHeuresReelles db tid) tid with
  | none =>
    rw [chr_chantiers_of_none db tid hcid]
    have hcid2 : chantierIdOfTache
        (storeHeuresReelles (storeHeuresReelles db tid) tid) tid = none := by
      rw [chantierIdOfTache_store]
      exact hcid
    rw [chr_chantiers_of_none _ _ hcid2, store_store]
  | some cid =>
    rw [chr_eq_ccr_of_some db tid cid hcid]
    have hcid2 : chantierIdOfTache
        (storeHeuresReelles (Chantier_calculer_cout_reel (storeHeuresReelles db tid) cid) tid)
        tid = some cid := by
      rw [chantierIdOfTache_store, chantierIdOfTache_ccr, chantierIdOfTache_store]
      rw [chantierIdOfTache_store] at hcid
      exact hcid
    rw [chr_eq_ccr_of_some _ tid cid hcid2]
    have hsy : storeHeuresReelles
        (Chantier_calculer_cout_reel (storeHeuresReelles db tid) cid) tid =
        Chantier_calculer_cout_reel (storeHeuresReelles db tid) cid := by
      apply DB_ext
      · rfl
      · rfl
      · show ((Chantier_calculer_cout_reel (storeHeuresReelles db tid) cid).taches).map
            (setHeuresReelles tid (sumHeures
              (Chantier_calculer_cout_reel (storeHeuresReelles db tid) cid) tid)) =
          (Chantier_calculer_cout_reel (storeHeuresReelles db tid) cid).taches
        rw [sumHeures_ccr, sumHeures_store, ccr_taches, store_taches]
        exact map_setHeuresReelles_idem db.taches tid (sumHeures db tid)
      · rfl
    rw [hsy]
    exact ccr_idem (storeHeuresReelles db tid) cid

/-! ## Invariant establishment: each cascade run establishes the stored
totals for the touched task and its chantier -/

theorem chr_tacheInvariant (db : DB) (tid : Nat) :
    tacheInvariant (Tache_calculer_heures_reelles db tid) tid := by
  intro t ht hid
  rw [sumHeures_chr]
  rw [chr_taches] at ht
  obtain ⟨t0, ht0, rfl⟩ := List.mem_map.mp ht
  by_cases h0 : t0.id = tid
  · unfold setHeuresReelles
    simp [h0]
  · rw [setHeuresReelles_id] at hid
    exact absurd hid h0

theorem ccr_chantierInvariant (db : DB) (cid : Nat) :
    chantierInvariant (Chantier_calculer_cout_reel db cid) cid := by
  intro c hc hid
  rw [coutTotal_ccr]
  rw [ccr_chantiers] at hc
  obtain ⟨c0, hc0, rfl⟩ := List.mem_map.mp hc
  by_cases h0 : c0.id = cid
  · unfold setCoutReel
    simp [h0]
  · unfold setCoutReel at hid
    rw [if_neg h0] at hid
    exact absurd hid h0

theorem chr_chantierInvariant (db : DB) (tid cid : Nat)
    (h : chantierIdOfTache db tid = some cid) :
    chantierInvariant (Tache_calculer_heures_reelles db tid) cid := by
  have h2 : chantierIdOfTache (storeHeuresReelles db tid) tid = some cid := by
    rw [chantierIdOfTache_store]
    exact h
  rw [chr_eq_ccr_of_some db tid cid h2]
  exact ccr_chantierInvariant _ _

/-! ## One write-path operation establishes the invariants -/

theorem save_tacheInvariant (db : DB) (h : HeureTravail) :
    tacheInvariant (HeureTravail_save db h) h.tacheId := by
  unfold HeureTravail_save
  exact chr_tacheInvariant _ _

theorem delete_tacheInvariant (db : DB) (hid : Nat) (e : HeureTravail)
    (hfind : db.heures.find? (fun x => x.id == hid) = some e) :
    tacheInvariant (HeureTravail_delete db hid) e.tacheId := by
  unfold HeureTravail_delete
  rw [hfind]
  exact chr_tacheInvariant _ _

theorem save_chantierInvariant (db : DB) (h : HeureTravail) (P : Nat)
    (hP : chantierIdOfTache db h.tacheId = some P) :
    chantierInvariant (HeureTravail_save db h) P := by
  unfold HeureTravail_save
  apply chr_chantierInvariant
  rw [chantierIdOfTache_chr]
  exact hP

theorem delete_chantierInvariant (db : DB) (hid : Nat) (e : HeureTravail) (P : Nat)
    (hfind : db.heures.find? (fun x => x.id == hid) = some e)
    (hP : chantierIdOfTache db e.tacheId = some P) :
    chantierInvariant (HeureTravail_delete db hid) P := by
  unfold HeureTravail_delete
  rw [hfind]
  apply chr_chantierInvariant
  exact hP

theorem applyOp_tacheInvariant (db : DB) (op : Op) (T : Nat)
    (hop : opUnderTache T db op) : tacheInvariant (applyOp db op) T := by
  cases op with
  | save h =>
    cases hop
    exact save_tacheInvariant db h
  | del i =>
    obtain ⟨e, hfind, hT⟩ := hop
    cases hT
    exact delete_tacheInvariant db i e hfind

theorem applyOp_chantierInvariant (db : DB) (op : Op) (P : Nat)
    (hop : opUnderChantier P db op) : chantierInvariant (applyOp db op) P := by
  cases op with
  | save h => exact save_chantierInvariant db h P hop
  | del i =>
    obtain ⟨e, hfind, hP⟩ := hop
    exact delete_chantierInvariant db i e P hfind hP

theorem applyOp_lots (db : DB) (op : Op) : (applyOp db op).lots = db.lots := by
  cases op with
  | save h =>
    show (HeureTravail_save db h).lots = db.lots
    unfold HeureTravail_save
    rw [chr_lots, chr_lots]
  | del i =>
    show (HeureTravail_delete db i).lots = db.lots
    unfold HeureTravail_delete
    cases hf : db.heures.find? (fun x => x.id == i) with
    | none => rfl
    | some e => rw [chr_lots]

/-! ## Sequences of operations -/

theorem seqT_invariant_aux (T : Nat) (db db2 : DB) (ops : List Op)
    (hs : SeqUnderTache T db ops db2) :
    (ops = [] ∧ db2 = db) ∨ tacheInvariant db2 T := by
  induction hs with
  | nil db => exact Or.inl ⟨rfl, rfl⟩
  | cons db op ops db2 hop htail ih =>
    rcases ih with ⟨_, hdb⟩ | hinv
    · exact Or.inr (hdb ▸ applyOp_tacheInvariant db op T hop)
    · exact Or.inr hinv

theorem seqT_invariant (T : Nat) (db db2 : DB) (ops : List Op)
    (hs : SeqUnderTache T db ops db2) (hne : ops ≠ []) : tacheInvariant db2 T := by
  rcases seqT_invariant_aux T db db2 ops hs with ⟨h1, _⟩ | hinv
  · exact absurd h1 hne
  · exact hinv

theorem seqC_invariant_aux (P : Nat) (db db2 : DB) (ops : List Op)
    (hs : SeqUnderChantier P db ops db2) :
    (ops = [] ∧ db2 = db) ∨ chantierInvariant db2 P := by
  induction hs with
  | nil db => exact Or.inl ⟨rfl, rfl⟩
  | cons db op ops db2 hop htail ih =>
    rcases ih with ⟨_, hdb⟩ | hinv
    · exact Or.inr (hdb ▸ applyOp_chantierInvariant db op P hop)
    · exact Or.inr hinv

theorem seqC_invariant (P : Nat) (db db2 : DB) (ops : List Op)
    (hs : SeqUnderChantier P db ops db2) (hne : ops ≠ []) : chantierInvariant db2 P := by
  rcases seqC_invariant_aux P db db2 ops hs with ⟨h1, _⟩ | hinv
  · exact absurd h1 hne
  · exact hinv

theorem seqC_lots (P : Nat) (db db2 : DB) (ops : List Op)
    (hs : SeqUnderChantier P db ops db2) : db2.lots = db.lots := by
  induction hs with
  | nil db => rfl
  | cons db op ops db2 hop htail ih => rw [ih, applyOp_lots]

/-! ## Guarded-sum lemmas: iterating the task table lot by lot is the
same as one flat pass, when lot ids are unique -/

theorem qsum_cons (a : α) (l : List α) (p : α → Bool) (f : α → ℚ) :
    qsum (a :: l) p f = (if p a then f a else 0) + qsum l p f := by
  simp [qsum]

theorem qsum_congr (l : List α) (p q : α → Bool) (f : α → ℚ)
    (h : ∀ a ∈ l, p a = q a) : qsum l p f = qsum l q f := by
  unfold qsum
  congr 1
  apply List.map_congr_left
  intro a ha
  rw [h a ha]

theorem qsum_zero (l : List α) (p : α → Bool) (f : α → ℚ)
    (h : ∀ a ∈ l, p a = false) : qsum l p f = 0 := by
  induction l with
  | nil => rfl
  | cons a l ih =>
    rw [qsum_cons, h a (List.mem_cons_self a l), if_neg (by simp)]
    rw [ih (fun b hb => h b (List.mem_cons_of_mem a hb))]
    ring

theorem sum_map_eq_qsum (l : List α) (p : α → Bool) (f : α → ℚ) :
    ((l.filter p).map f).sum = qsum l p f := by
  induction l with
  | nil => rfl
  | cons a l ih =>
    rw [List.filter_cons, qsum_cons]
    by_cases h : p a
    · simp [h, ih]
    · simp [h, ih]

theorem qsum_add_split (l : List α) (c p q : α → Bool) (f : α → ℚ)
    (h : ∀ a ∈ l, (if c a then f a else 0) =
      (if p a then f a else 0) + (if q a then f a else 0)) :
    qsum l c f = qsum l p f + qsum l q f := by
  induction l with
  | nil => simp [qsum]
  | cons a l ih =>
    rw [qsum_cons, qsum_cons, qsum_cons, h a (List.mem_cons_self a l),
      ih (fun b hb => h b (List.mem_cons_of_mem a hb))]
    ring

theorem sum_map_one (l : List α) : (l.map (fun _ => (1 : ℚ))).sum = l.length := by
  induction l with
  | nil => rfl
  | cons a l ih =>
    rw [List.map_cons, List.sum_cons, ih, List.length_cons]
    push_cast
    ring

theorem qsum_one_eq_length (l : List α) (p : α → Bool) :
    qsum l p (fun _ => (1 : ℚ)) = ((l.filter p).length : ℚ) := by
  rw [← sum_map_eq_qsum, sum_map_one]

theorem qsum_ite_one (l : List α) (p q : α → Bool) :
    qsum l p (fun a => if q a then (1 : ℚ) else 0) =
      qsum l (fun a => p a && q a) (fun _ => (1 : ℚ)) := by
  unfold qsum
  congr 1
  apply List.map_congr_left
  intro a _
  by_cases hp : p a <;> by_cases hq : q a <;> simp [hp, hq]

theorem find?_eq_none_of_ne (ls : List Lot) (lid : Nat)
    (h : ∀ l2 ∈ ls, l2.id ≠ lid) :
    ls.find? (fun l2 => l2.id == lid) = none := by
  rw [List.find?_eq_none]
  intro a ha
  simp [h a ha]

theorem nestedSumQ_cons (l : Lot) (ls : List Lot) (taches : List Tache)
    (cid : Nat) (f : Tache → ℚ) :
    nestedSumQ (l :: ls) taches cid f =
      (if l.chantierId = cid then qsum taches (fun t => t.lotId == l.id) f else 0) +
        nestedSumQ ls taches cid f := by
  unfold nestedSumQ
  rw [List.filter_cons]
  by_cases hc : l.chantierId = cid
  · rw [if_pos (by simp [hc]), if_pos hc, List.map_cons, List.sum_cons,
      sum_map_eq_qsum]
  · rw [if_neg (by simp [hc]), if_neg hc]
    ring

theorem flatSumQ_eq_qsum (lots : List Lot) (taches : List Tache) (cid : Nat)
    (f : Tache → ℚ) :
    flatSumQ lots taches cid f =
      qsum taches (fun t =>
        ((lots.find? (fun l2 => l2.id == t.lotId)).map (fun l2 => l2.chantierId)) ==
          some cid) f := by
  unfold flatSumQ
  rw [sum_map_eq_qsum]

theorem nestedSumQ_eq_flatSumQ (taches : List Tache) (cid : Nat) (f : Tache → ℚ) :
    ∀ lots : List Lot, (lots.map (fun l => l.id)).Nodup →
      nestedSumQ lots taches cid f = flatSumQ lots taches cid f := by
  intro lots
  induction lots with
  | nil =>
    intro _
    unfold nestedSumQ flatSumQ
    simp
  | cons l ls ih =>
    intro hnd
    rw [List.map_cons, List.nodup_cons] at hnd
    obtain ⟨hl, hnds⟩ := hnd
    have hnone : ∀ t : Tache, t.lotId = l.id →
        ls.find? (fun l2 => l2.id == t.lotId) = none := by
      intro t ht
      apply find?_eq_none_of_ne
      intro l2 hl2 h2
      have h3 : l2.id = l.id := by rw [h2, ht]
      exact hl (h3 ▸ List.mem_map_of_mem (fun x => x.id) hl2)
    -- split the flat sum over `l :: ls` into the part matched by `l`
    -- and the part matched by `ls`
    have hsplit : qsum taches (fun t =>
        (((l :: ls).find? (fun l2 => l2.id == t.lotId)).map (fun l2 => l2.chantierId)) ==
          some cid) f =
        qsum taches (fun t => t.lotId == l.id && l.chantierId == cid) f +
          qsum taches (fun t => !(t.lotId == l.id) &&
            (((ls.find? (fun l2 => l2.id == t.lotId)).map (fun l2 => l2.chantierId)) ==
              some cid)) f := by
      apply qsum_add_split
      intro t _
      by_cases ht : t.lotId = l.id
      · rw [List.find?_cons_of_pos _ (by simp [ht]), hnone t ht]
        by_cases hc : l.chantierId = cid
        · simp [ht, hc]
        · simp [ht, hc]
      · rw [List.find?_cons_of_neg _ (by simp [Ne.symm ht])]
        simp [ht]
    rw [nestedSumQ_cons, ih hnds, flatSumQ_eq_qsum, flatSumQ_eq_qsum, hsplit]
    congr 1
    · -- head part
      by_cases hc : l.chantierId = cid
      · rw [if_pos hc]
        apply qsum_congr
        intro t _
        simp [hc]
      · rw [if_neg hc]
        refine (qsum_zero _ _ _ ?_).symm
        intro t _
        simp [hc]
    · -- tail part: tasks pointing at `l` contribute nothing to the
      -- `ls` sum because `l.id` does not reappear in `ls`
      apply qsum_congr
      intro t _
      by_cases ht : t.lotId = l.id
      · rw [hnone t ht]
        simp [ht]
      · simp [ht]

/-! ## Counting tasks: the lot-by-lot counts of
`Chantier.get_progression_percentage` equal flat counts over the task
table -/

theorem cast_code_total (db : DB) (cid : Nat) :
    ((((db.lots.filter (fun l => l.chantierId == cid)).map
        (fun l => lotTacheCount db l.id)).sum : ℕ) : ℚ) =
      nestedSumQ db.lots db.taches cid (fun _ => (1 : ℚ)) := by
  rw [Nat.cast_list_sum, List.map_map]
  unfold nestedSumQ
  congr 1
  apply List.map_congr_left
  intro l _
  rw [sum_map_one]
  rfl

theorem cast_code_terminees (db : DB) (cid : Nat) :
    ((((db.lots.filter (fun l => l.chantierId == cid)).map
        (fun l => lotTacheTermineesCount db l.id)).sum : ℕ) : ℚ) =
      nestedSumQ db.lots db.taches cid
        (fun t => if t.status == StatusTache.TERMINEE then (1 : ℚ) else 0) := by
  rw [Nat.cast_list_sum, List.map_map]
  unfold nestedSumQ
  congr 1
  apply List.map_congr_left
  intro l _
  have h1 : ((db.taches.filter (fun t => t.lotId == l.id)).map
      (fun t => if t.status == StatusTache.TERMINEE then (1 : ℚ) else 0)).sum =
      qsum (db.taches.filter (fun t => t.lotId == l.id))
        (fun t => t.status == StatusTache.TERMINEE) (fun _ => (1 : ℚ)) := rfl
  rw [h1, qsum_one_eq_length, List.filter_filter]
  have h2 : db.taches.filter (fun a => a.status == StatusTache.TERMINEE && a.lotId == l.id) =
      db.taches.filter (fun t => t.lotId == l.id && t.status == StatusTache.TERMINEE) := by
    apply List.filter_congr
    intro t _
    rw [Bool.and_comm]
  rw [h2]
  rfl

theorem tachesUnderCount_cast (db : DB) (cid : Nat) :
    ((tachesUnderCount db cid : ℕ) : ℚ) =
      flatSumQ db.lots db.taches cid (fun _ => (1 : ℚ)) := by
  rw [flatSumQ_eq_qsum, qsum_one_eq_length]
  rfl

theorem tachesTermineesUnderCount_cast (db : DB) (cid : Nat) :
    ((tachesTermineesUnderCount db cid : ℕ) : ℚ) =
      flatSumQ db.lots db.taches cid
        (fun t => if t.status == StatusTache.TERMINEE then (1 : ℚ) else 0) := by
  rw [flatSumQ_eq_qsum, qsum_ite_one, qsum_one_eq_length]
  rfl

theorem code_counts_eq (db : DB) (cid : Nat)
    (hnd : (db.lots.map (fun l => l.id)).Nodup) :
    ((db.lots.filter (fun l => l.chantierId == cid)).map
      (fun l => lotTacheCount db l.id)).sum = tachesUnderCount db cid ∧
    ((db.lots.filter (fun l => l.chantierId == cid)).map
      (fun l => lotTacheTermineesCount db l.id)).sum =
        tachesTermineesUnderCount db cid := by
  constructor
  · have h := cast_code_total db cid
    rw [nestedSumQ_eq_flatSumQ _ _ _ _ hnd, ← tachesUnderCount_cast] at h
    exact_mod_cast h
  · have h := cast_code_terminees db cid
    rw [nestedSumQ_eq_flatSumQ _ _ _ _ hnd, ← tachesTermineesUnderCount_cast] at h
    exact_mod_cast h

/-! ## C6, C7, C10, C3, C8 -/

/-- C6: `Tache.est_en_retard` returns true exactly when
(status ≠ TERMINEE and today > planned end) or (status = TERMINEE and the
actual end date exists and is after the planned end); so a non-done task
whose planned end is in the future, and a done task that finished on or
before its planned end, are not late. -/
theorem C6_est_en_retard_correct (t : Tache) (today : Int) :
    Tache_est_en_retard t today = true ↔
      ((t.status ≠ StatusTache.TERMINEE ∧ today > t.date_fin_prevue) ∨
        (t.status = StatusTache.TERMINEE ∧
          ∃ d, t.date_fin_reelle = some d ∧ d > t.date_fin_prevue)) := by
  unfold Tache_est_en_retard
  by_cases h : t.status = StatusTache.TERMINEE
  · cases hd : t.date_fin_reelle with
    | none => simp [h, hd]
    | some d => simp [h, hd]
  · simp [h]

/-- C7: with the boolean filter "en_retard" set to true, the chantier
queryset keeps exactly the chantiers with `date_fin_prevue < today` and
status in {EN_COURS, EN_ATTENTE}, and the task queryset keeps exactly the
tasks with `date_fin_prevue < today` and status in
{A_FAIRE, EN_COURS, EN_ATTENTE}, as direct comparisons on the rows. -/
theorem C7_filter_en_retard_correct (today : Int) (qsC : List Chantier)
    (qsT : List Tache) (c : Chantier) (t : Tache) :
    (c ∈ ChantiersFilter_filter_en_retard today qsC true ↔
      c ∈ qsC ∧ c.date_fin_prevue < today ∧
        (c.status = StatusChantier.EN_COURS ∨ c.status = StatusChantier.EN_ATTENTE)) ∧
    (t ∈ TacheFilter_filter_en_retard today qsT true ↔
      t ∈ qsT ∧ t.date_fin_prevue < today ∧
        (t.status = StatusTache.A_FAIRE ∨ t.status = StatusTache.EN_COURS ∨
          t.status = StatusTache.EN_ATTENTE)) := by
  constructor <;>
    simp [ChantiersFilter_filter_en_retard, TacheFilter_filter_en_retard,
      List.mem_filter, and_assoc, or_assoc]

/-- C10: the anomaly closure action checks only `IsAuthenticated`; for
every authenticated principal (staff or not, chef or not) it answers 200
after setting `statut = FERMEE` and `date_resolution_reelle` to today. -/
theorem C10_fermer_no_object_permission (u : Principal) (a : Anomalie) (today : Int)
    (hauth : u.is_authenticated = true) :
    (AnomaliesViewSet_fermer u a today).1 = 200 ∧
      (AnomaliesViewSet_fermer u a today).2.statut = StatutAnomalie.FERMEE ∧
      (AnomaliesViewSet_fermer u a today).2.date_resolution_reelle = some today := by
  simp [AnomaliesViewSet_fermer, hauth]

/-- C10 witness: user 2 is authenticated, not staff, and not the chef
(user 9) of the chantier owning task 1, yet closing anomaly 1 succeeds. -/
theorem C10_witness :
    examplePrincipal.is_authenticated = true ∧
    ((AnomaliesViewSet_fermer examplePrincipal exampleAnomalie 100).1 = 200 ∧
      (AnomaliesViewSet_fermer examplePrincipal exampleAnomalie 100).2.statut =
        StatutAnomalie.FERMEE ∧
      (AnomaliesViewSet_fermer examplePrincipal exampleAnomalie 100).2.date_resolution_reelle =
        some 100) :=
  ⟨rfl, C10_fermer_no_object_permission examplePrincipal exampleAnomalie 100 rfl⟩

/-- C3 counterexample: principal 2 is authenticated, not staff, and not
the chef (user 9) of the chantier that task 1 sits under, yet a PATCH on
that task is not answered with 403 — `TachesViewSet` carries no
object-level permission, so the request reaches the handler (200). -/
theorem C3_counterexample :
    examplePrincipal.is_authenticated = true ∧
    examplePrincipal.is_staff = false ∧
    exampleDB.chantiers.map (fun c => c.chef) = [some 9] ∧
    chantierIdOfTache exampleDB 1 = some 1 ∧
    tache_object_request_status Method.PATCH examplePrincipal ≠ 403 ∧
    tache_object_request_status Method.PATCH examplePrincipal = 200 := by
  refine ⟨rfl, rfl, rfl, by decide, by decide, rfl⟩

/-- C3 amended: a mutating request on a Chantier object itself by an
authenticated principal who is neither its chef nor staff is answered
403 (and the handler never runs, so the object is unchanged); but
objects nested under it (tasks, and likewise lots and hour entries,
whose viewsets declare only `IsAuthenticated`) accept mutating requests
from any authenticated principal. -/
theorem C3_amended_write_permissions (u : Principal) (m : Method) (chef : Option Nat)
    (hauth : u.is_authenticated = true) (hstaff : u.is_staff = false)
    (hchef : chef ≠ some u.id) (hm : m ∉ SAFE_METHODS) :
    chantier_object_request_status m u chef = 403 ∧
    tache_object_request_status m u = 200 := by
  unfold chantier_object_request_status tache_object_request_status
    IsChefOrReadOnly_has_object_permission
  simp [hauth, hstaff, hm, hchef]

/-- C3 amended witness: PATCH by authenticated non-staff user 2 on a
chantier led by user 9 gives 403; PATCH on a task gives 200. -/
theorem C3_amended_witness :
    (examplePrincipal.is_authenticated = true ∧ examplePrincipal.is_staff = false ∧
      (some 9 : Option Nat) ≠ some examplePrincipal.id ∧ Method.PATCH ∉ SAFE_METHODS) ∧
    (chantier_object_request_status Method.PATCH examplePrincipal (some 9) = 403 ∧
      tache_object_request_status Method.PATCH examplePrincipal = 200) :=
  ⟨⟨rfl, rfl, by decide, by decide⟩,
    C3_amended_write_permissions examplePrincipal Method.PATCH (some 9) rfl rfl
      (by decide) (by decide)⟩

/-- C8: the photo upload endpoint answers 201 exactly for images of at
most 5 MB (5 × 1024 × 1024 bytes) whose extension is one of
jpg/jpeg/png/webp, and 400 otherwise; an allowed-format image strictly
over 5 MB is rejected with the size-limit validation error, and a
disallowed format is rejected with the extension validation error. -/
theorem C8_photo_endpoint_validation (img : UploadedImage) :
    ((TachesViewSet_photo_post img).1 = 201 ↔
      img.size ≤ 5 * 1024 * 1024 ∧ img.ext ∈ allowedPhotoExtensions) ∧
    ((TachesViewSet_photo_post img).1 = 400 ↔
      ¬(img.size ≤ 5 * 1024 * 1024 ∧ img.ext ∈ allowedPhotoExtensions)) ∧
    (img.ext ∈ allowedPhotoExtensions → img.size > 5 * 1024 * 1024 →
      TachesViewSet_photo_post img = (400, some PhotoErr.imageTooLarge)) ∧
    (img.ext ∉ allowedPhotoExtensions →
      TachesViewSet_photo_post img = (400, some PhotoErr.formatNotAllowed)) := by
  unfold TachesViewSet_photo_post PhotoRapportSerializer_validate_image
  by_cases hx : img.ext ∈ allowedPhotoExtensions <;>
    by_cases hs : img.size > 5 * 1024 * 1024 <;>
      (simp [hx, hs, List.elem_iff]; try omega)

/-- C4: the hour-logging endpoint, with the submitted hours value given
as `n` hundredths of an hour (the model field has 2 decimal places),
answers 201 exactly when `0 < n/100 ≤ 24`, i.e. `0 < n ≤ 2400`, and 400
otherwise; on 400 the state is unchanged (no entry created), and on 201
the entry with value `n/100` is created under the task. -/
theorem C4_heures_endpoint_validation (db : DB) (tid eid : Nat) (n : Int) :
    ((TachesViewSet_heures_post db tid eid n).1 = 201 ↔ 0 < n ∧ n ≤ 2400) ∧
    ((TachesViewSet_heures_post db tid eid n).1 = 400 ↔ ¬(0 < n ∧ n ≤ 2400)) ∧
    (¬(0 < n ∧ n ≤ 2400) → (TachesViewSet_heures_post db tid eid n).2 = db) ∧
    (0 < n ∧ n ≤ 2400 → ∃ e ∈ (TachesViewSet_heures_post db tid eid n).2.heures,
      e.tacheId = tid ∧ e.heures = (n : ℚ) / 100) := by
  have h400 : ¬(0 < n ∧ n ≤ 2400) → TachesViewSet_heures_post db tid eid n = (400, db) := by
    intro h
    unfold TachesViewSet_heures_post HeuresTravailSerializer_validate_heures
    by_cases h1 : n ≤ 0
    · simp [h1]
    · have h2 : n > 2400 := by omega
      simp [h1, h2]
  have h201 : (0 < n ∧ n ≤ 2400) → TachesViewSet_heures_post db tid eid n =
      (201, HeureTravail_save db { id := eid, tacheId := tid, heures := (n : ℚ) / 100 }) := by
    intro h
    unfold TachesViewSet_heures_post HeuresTravailSerializer_validate_heures
    have h1 : ¬ n ≤ 0 := by omega
    have h2 : ¬ n > 2400 := by omega
    simp [h1, h2]
  by_cases hv : 0 < n ∧ n ≤ 2400
  · rw [h201 hv]
    refine ⟨by simpa using hv, by simpa using hv, fun h => absurd hv h, fun _ => ?_⟩
    refine ⟨{ id := eid, tacheId := tid, heures := (n : ℚ) / 100 }, ?_, rfl, rfl⟩
    show _ ∈ (HeureTravail_save db _).heures
    rw [save_heures]
    exact mem_upsertHeure _ _
  · rw [h400 hv]
    exact ⟨by simpa using hv, by simpa using hv, fun _ => rfl, fun h => absurd h hv⟩

/-- C4 witness: 0.1 h (10 hundredths) is accepted with 201 and creates
the entry; 24.01 h (2401 hundredths) is rejected with 400 and leaves the
state unchanged. -/
theorem C4_witness :
    ((0 : Int) < 10 ∧ (10 : Int) ≤ 2400 ∧
      (TachesViewSet_heures_post exampleDB 1 1 10).1 = 201) ∧
    (¬((0 : Int) < 2401 ∧ (2401 : Int) ≤ 2400) ∧
      (TachesViewSet_heures_post exampleDB 1 1 2401).1 = 400 ∧
      (TachesViewSet_heures_post exampleDB 1 1 2401).2 = exampleDB) :=
  ⟨⟨by decide, by decide,
      (C4_heures_endpoint_validation exampleDB 1 1 10).1.mpr ⟨by decide, by decide⟩⟩,
    ⟨by decide,
      (C4_heures_endpoint_validation exampleDB 1 1 2401).2.1.mpr (by decide),
      (C4_heures_endpoint_validation exampleDB 1 1 2401).2.2.1 (by decide)⟩⟩

/-- C1: after any nonempty sequence of work-hour creates/updates/deletes
under task `T` through the model save/delete paths, every task row with
id `T` stores exactly the sum of the `heures` of its remaining entries —
and stores 0 when no entries remain (in particular after the last entry
is deleted). -/
theorem C1_heures_reelles_invariant (T : Nat) (db db2 : DB) (ops : List Op)
    (hs : SeqUnderTache T db ops db2) (hne : ops ≠ []) :
    (∀ t ∈ db2.taches, t.id = T → t.heures_reelles = sumHeures db2 T) ∧
    (entriesOf db2 T = [] → ∀ t ∈ db2.taches, t.id = T → t.heures_reelles = 0) := by
  have hinv := seqT_invariant T db db2 ops hs hne
  refine ⟨hinv, fun hemp t ht hid => ?_⟩
  rw [hinv t ht hid]
  unfold sumHeures
  rw [hemp]
  rfl

/-- C1 witness: saving one 8-hour entry on task 1 of `exampleDB` (a
one-operation sequence under task 1) leaves every row with id 1 storing
the sum of its entries. -/
theorem C1_witness :
    ([Op.save exampleEntry] ≠ ([] : List Op)) ∧
    (∀ t ∈ (applyOp exampleDB (Op.save exampleEntry)).taches, t.id = 1 →
      t.heures_reelles = sumHeures (applyOp exampleDB (Op.save exampleEntry)) 1) :=
  ⟨List.cons_ne_nil _ _,
    (C1_heures_reelles_invariant 1 exampleDB (applyOp exampleDB (Op.save exampleEntry))
      [Op.save exampleEntry]
      (SeqUnderTache.cons _ _ _ _ rfl (SeqUnderTache.nil _))
      (List.cons_ne_nil _ _)).1⟩

/-- C2: after any nonempty sequence of work-hour mutations anywhere under
chantier `P` (each touched task resolving to `P`), with unique lot ids,
every chantier row with id `P` stores exactly the sum over all tasks
under `P` of `heures_reelles × taux_horaire`: the task-hours
recomputation always chains into the project cost recomputation, so the
rollup is never skipped. -/
theorem C2_cout_reel_invariant (P : Nat) (db db2 : DB) (ops : List Op)
    (hs : SeqUnderChantier P db ops db2) (hne : ops ≠ [])
    (hnd : (db.lots.map (fun l => l.id)).Nodup) :
    ∀ c ∈ db2.chantiers, c.id = P → c.cout_reel = coutFlat db2 P := by
  have hinv := seqC_invariant P db db2 ops hs hne
  have hlots := seqC_lots P db db2 ops hs
  intro c hc hid
  rw [hinv c hc hid]
  show nestedSumQ db2.lots db2.taches P Tache_calculer_cout_heures = coutFlat db2 P
  rw [nestedSumQ_eq_flatSumQ]
  · rfl
  · rw [hlots]
    exact hnd

/-- C2 witness: saving one 8-hour entry on task 1 (whose lot belongs to
chantier 1) leaves chantier 1 storing the flat cost sum. -/
theorem C2_witness :
    ([Op.save exampleEntry] ≠ ([] : List Op)) ∧
    (exampleDB.lots.map (fun l => l.id)).Nodup ∧
    (∀ c ∈ (applyOp exampleDB (Op.save exampleEntry)).chantiers, c.id = 1 →
      c.cout_reel = coutFlat (applyOp exampleDB (Op.save exampleEntry)) 1) :=
  ⟨List.cons_ne_nil _ _, by decide,
    C2_cout_reel_invariant 1 exampleDB (applyOp exampleDB (Op.save exampleEntry))
      [Op.save exampleEntry]
      (SeqUnderChantier.cons _ _ _ _
        (show chantierIdOfTache exampleDB exampleEntry.tacheId = some 1 by decide)
        (SeqUnderChantier.nil _))
      (List.cons_ne_nil _ _) (by decide)⟩

/-- C9: `Tache.calculer_heures_reelles` is idempotent on the whole
database state — running it twice on the same task equals running it
once, so the stored `heures_reelles` and the parent chantier's
`cout_reel` are unchanged by the second run; in particular the double
invocation performed by `HeureTravail.save` (once through the overridden
`save`, once through the `post_save` signal) produces the same final
state as a single invocation after the row write. -/
theorem C9_recompute_idempotent (db : DB) (tid : Nat) (h : HeureTravail) :
    Tache_calculer_heures_reelles (Tache_calculer_heures_reelles db tid) tid =
      Tache_calculer_heures_reelles db tid ∧
    HeureTravail_save db h =
      Tache_calculer_heures_reelles { db with heures := upsertHeure db.heures h }
        h.tacheId :=
  ⟨chr_idem db tid, chr_idem { db with heures := upsertHeure db.heures h } h.tacheId⟩

/-- C5: under unique lot ids, the chantier progression equals
(completed tasks / total tasks) × 100 counted over all tasks under the
chantier (completed = status `TERMINEE`), and is 0 when the chantier has
no tasks; the lot progression is the same ratio restricted to the lot's
own tasks, and 0 for a lot with no tasks. -/
theorem C5_progression_ratio (db : DB) (cid lid : Nat)
    (hnd : (db.lots.map (fun l => l.id)).Nodup) :
    (tachesUnderCount db cid = 0 → Chantier_get_progression_percentage db cid = 0) ∧
    (tachesUnderCount db cid ≠ 0 →
      Chantier_get_progression_percentage db cid =
        ((tachesTermineesUnderCount db cid : ℚ) / (tachesUnderCount db cid : ℚ)) * 100) ∧
    (lotTacheCount db lid = 0 → Lot_get_progression_percentage db lid = 0) ∧
    (lotTacheCount db lid ≠ 0 →
      Lot_get_progression_percentage db lid =
        ((lotTacheTermineesCount db lid : ℚ) / (lotTacheCount db lid : ℚ)) * 100) := by
  obtain ⟨hTot, hTer⟩ := code_counts_eq db cid hnd
  refine ⟨?_, ?_, ?_, ?_⟩
  · intro h0
    unfold Chantier_get_progression_percentage
    by_cases he : (db.lots.filter (fun l => l.chantierId == cid)).isEmpty
    · simp [he]
    · have hz : ((db.lots.filter (fun l => l.chantierId == cid)).map
          (fun l => lotTacheCount db l.id)).sum = 0 := by rw [hTot, h0]
      simp [he, hz]
  · intro hne
    unfold Chantier_get_progression_percentage
    have he : (db.lots.filter (fun l => l.chantierId == cid)).isEmpty = false := by
      by_contra h
      rw [Bool.not_eq_false, List.isEmpty_iff] at h
      apply hne
      rw [← hTot, h]
      rfl
    have hz : ¬(((db.lots.filter (fun l => l.chantierId == cid)).map
        (fun l => lotTacheCount db l.id)).sum = 0) := by
      rw [hTot]
      exact hne
    simp only [he, Bool.false_eq_true, if_false, hz]
    rw [hTot, hTer]
  · intro h0
    unfold Lot_get_progression_percentage
    have he : (db.taches.filter (fun t => t.lotId == lid)).isEmpty = true := by
      rw [List.isEmpty_iff, ← List.length_eq_zero]
      exact h0
    simp [he]
  · intro hne
    unfold Lot_get_progression_percentage
    have he : (db.taches.filter (fun t => t.lotId == lid)).isEmpty = false := by
      by_contra h
      rw [Bool.not_eq_false, List.isEmpty_iff] at h
      apply hne
      show (db.taches.filter (fun t => t.lotId == lid)).length = 0
      rw [h]
      rfl
    simp only [he, Bool.false_eq_true, if_false]
    rfl

/-- C5 witness: the theorem instantiated at `exampleDB` (one lot, one
task, not yet completed): one task under the chantier, so the chantier
and lot progressions both equal the 0/1 ratio. -/
theorem C5_witness :
    (exampleDB.lots.map (fun l => l.id)).Nodup ∧
    tachesUnderCount exampleDB 1 ≠ 0 ∧
    Chantier_get_progression_percentage exampleDB 1 =
      ((tachesTermineesUnderCount exampleDB 1 : ℚ) / (tachesUnderCount exampleDB 1 : ℚ)) * 100 ∧
    Lot_get_progression_percentage exampleDB 1 =
      ((lotTacheTermineesCount exampleDB 1 : ℚ) / (lotTacheCount exampleDB 1 : ℚ)) * 100 :=
  ⟨by decide, by decide,
    (C5_progression_ratio exampleDB 1 1 (by decide)).2.1 (by decide),
    (C5_progression_ratio exampleDB 1 1 (by decide)).2.2.2 (by decide)⟩

/-- C8 witness: a 6 MB jpg is rejected with the size-limit error, and a
4 MB jpeg is accepted with 201. -/
theorem C8_witness :
    (TachesViewSet_photo_post { size := 6 * 1024 * 1024, ext := "jpg" } =
      (400, some PhotoErr.imageTooLarge)) ∧
    (TachesViewSet_photo_post { size := 4 * 1024 * 1024, ext := "jpeg" }).1 = 201 :=
  ⟨(C8_photo_endpoint_validation { size := 6 * 1024 * 1024, ext := "jpg" }).2.2.1
      (by simp [allowedPhotoExtensions]) (by norm_num),
    ((C8_photo_endpoint_validation { size := 4 * 1024 * 1024, ext := "jpeg" }).1).mpr
      ⟨by norm_num, by simp [allowedPhotoExtensions]⟩⟩

end Chantiers
